import Mathlib

/-!
# Verification of the ominime Input Capture & Session Attribution Engine

Shallow embedding of the Python sources of `itsoso/ominime`:

* `src/ominime/keyboard_listener.py` — key-event mapping tables, the
  pinyin (IME) reconciliation buffer and its state transitions
  (`_event_callback`, `_on_rime_input`, the `_pinyin_buffer` helpers);
* `src/ominime/app_tracker.py` — `InputSession`, `AppStats`, `AppTracker`
  (`record_input`, `get_or_create_session`, `_complete_session`,
  `flush_current_session`);
* `src/ominime/config.py` — the static default configuration
  (`session_timeout`, `ignored_apps`, `app_aliases`);
* `src/ominime/menu_bar.py` — the session-saving part of
  `OmniMeApp._stop_recording` and `_save_session`.

Wall-clock reads (`datetime.now()`) are threaded as an explicit `now : Int`
(seconds); `uuid.uuid4()` session ids are modelled by a fresh counter.
All definitions are executable and follow the Python control flow branch
by branch.
-/

namespace OmniMe

/-! ## Python string-predicate helpers

The characters flowing through `_event_callback` come only from the two
static key tables (ASCII characters, the arrow glyphs, `"esc"`, `"del"`,
`"F1"`–`"F12"`), so the ASCII-level `Char.isAlpha`/`Char.isLower`/
`Char.isUpper` agree with Python's `str.isalpha`/`str.islower` on the
whole reachable domain. -/

/-- Python `s.isalpha()`: non-empty and every character alphabetic. -/
def pyIsAlpha (s : String) : Bool :=
  !s.toList.isEmpty && s.toList.all Char.isAlpha

/-- Python `s.islower()`: at least one cased character and no cased
character is uppercase. -/
def pyIsLower (s : String) : Bool :=
  s.toList.any (fun c => c.isLower || c.isUpper) &&
    s.toList.all (fun c => !c.isUpper)

/-- Python `needle in hay` on strings: substring containment. -/
def pyInStr (needle hay : String) : Bool :=
  hay.toList.tails.any (fun t => needle.toList.isPrefixOf t)

/-- Python `s.strip()`: drop leading and trailing whitespace. -/
def pyStrip (s : String) : String :=
  String.mk
    (((s.toList.dropWhile Char.isWhitespace).reverse.dropWhile
        Char.isWhitespace).reverse)

/-! ## Data model -/

/-- `KeyEvent` from `keyboard_listener.py` (the fields the reconciliation
logic reads and writes; `timestamp`, `keycode` and `modifiers` carry no
information used by any transition below). `is_ime_input` is the
provenance flag: `true` = ime, `false` = literal. -/
structure KeyEvent where
  character : String
  app_name : String
  app_bundle_id : String
  is_ime_input : Bool
deriving Repr, DecidableEq

/-- The module-level mutable globals of `keyboard_listener.py` that make up
the reconciliation state: `_pinyin_buffer`, `_pinyin_buffer_app`,
`_pinyin_mode`, `_last_input_app`, together with the foreground-app cache
(read through `get_frontmost_app`, constant in our traces). -/
structure RecState where
  pinyinBuffer : String
  pinyinBufferApp : String × String
  pinyinMode : Bool
  lastInputApp : String × String
  frontmostApp : String × String
deriving Repr, DecidableEq

/-- The globals' initial values (`""`, `("Unknown", "unknown")`, `False`). -/
def initRecState (front : String × String) : RecState :=
  { pinyinBuffer := ""
    pinyinBufferApp := ("Unknown", "unknown")
    pinyinMode := false
    lastInputApp := ("Unknown", "unknown")
    frontmostApp := front }

/-- `add_to_pinyin_buffer`: append the character and overwrite the
buffer's owning app with the app of this very character. -/
def add_to_pinyin_buffer (char : String) (appName bundleId : String)
    (s : RecState) : RecState :=
  { s with pinyinBuffer := s.pinyinBuffer ++ char
           pinyinBufferApp := (appName, bundleId) }

/-- `clear_pinyin_buffer`: empty the buffer (owning app left as is). -/
def clear_pinyin_buffer (s : RecState) : RecState :=
  { s with pinyinBuffer := "" }

/-- `flush_pinyin_buffer_as_english`: return `(content, app_name,
bundle_id)` and empty the buffer. -/
def flush_pinyin_buffer_as_english (s : RecState) :
    (String × String × String) × RecState :=
  ((s.pinyinBuffer, s.pinyinBufferApp.1, s.pinyinBufferApp.2),
   { s with pinyinBuffer := "" })

/-- `set_pinyin_mode`. -/
def set_pinyin_mode (b : Bool) (s : RecState) : RecState :=
  { s with pinyinMode := b }

/-- `set_last_input_app`. -/
def set_last_input_app (name bundleId : String) (s : RecState) : RecState :=
  { s with lastInputApp := (name, bundleId) }

/-- `KeyboardListener._on_rime_input`: on composed text from the Rime log,
clear pinyin mode and the pinyin buffer, strip the text, and emit a single
ime-provenance `KeyEvent` unless the stripped text is empty. -/
def on_rime_input (text : String) (appName bundleId : String)
    (s : RecState) : RecState × List KeyEvent :=
  let s1 := set_pinyin_mode false s
  let s2 := clear_pinyin_buffer s1
  let t := pyStrip text
  if t = "" then (s2, [])
  else (s2, [{ character := t, app_name := appName,
               app_bundle_id := bundleId, is_ime_input := true }])

/-- The per-character reconciliation logic of
`KeyboardListener._event_callback` (lines 419–478), entered once the
mapped `character` and the resolved target app are known:

* lowercase alphabetic → pinyin mode on, record last-input app, buffer the
  character, emit nothing;
* `" "` while in pinyin mode → consumed (candidate selection);
* a digit `1`–`9` while in pinyin mode → consumed (candidate selection);
* anything else → flush the buffer (if non-empty) as one literal
  `KeyEvent` attributed to the buffer's recorded app, clear pinyin mode,
  then emit the triggering character as its own literal `KeyEvent`. -/
def processCharacter (character : String) (appName bundleId : String)
    (s : RecState) : RecState × List KeyEvent :=
  if pyIsAlpha character && pyIsLower character then
    let s1 := set_pinyin_mode true s
    let s2 := set_last_input_app appName bundleId s1
    let s3 := add_to_pinyin_buffer character appName bundleId s2
    (s3, [])
  else if character = " " && s.pinyinMode then
    (s, [])
  else if pyInStr character "123456789" && s.pinyinMode then
    (s, [])
  else
    let fl := flush_pinyin_buffer_as_english s
    let content := fl.1.1
    let emits :=
      if content ≠ "" then
        [{ character := content, app_name := fl.1.2.1,
           app_bundle_id := fl.1.2.2, is_ime_input := false : KeyEvent }]
      else []
    let s1 := set_pinyin_mode false fl.2
    (s1, emits ++ [{ character := character, app_name := appName,
                     app_bundle_id := bundleId, is_ime_input := false }])

/-- The two asynchronous inputs that drive the reconciliation state: a
mapped key-down (with its resolved target app) and a composed-text entry
read from the Rime log. -/
inductive InEvent where
  | key (character : String) (appName bundleId : String)
  | rime (text : String)
deriving Repr, DecidableEq

/-- One reconciliation step.  For a `rime` event the target app is chosen
as in `RimeLogWatcher._watch_loop`: the last-input app when one was
recorded, otherwise the frontmost app. -/
def stepSys (s : RecState) : InEvent → RecState × List KeyEvent
  | .key c n b => processCharacter c n b s
  | .rime text =>
      let app := if s.lastInputApp.1 ≠ "Unknown" then s.lastInputApp
                 else s.frontmostApp
      on_rime_input text app.1 app.2 s

/-- Run a sequence of input events, collecting every emitted `KeyEvent`
in order. -/
def runSys (s : RecState) : List InEvent → RecState × List KeyEvent
  | [] => (s, [])
  | e :: es =>
      let r1 := stepSys s e
      let r2 := runSys r1.1 es
      (r2.1, r1.2 ++ r2.2)

/-! ## The literal-only pipeline (reconciler emissions fed into
`InputSession.append`), used to state the resolved-output property. -/

/-- A run of single-character literal key events directed at one app. -/
def keyEvents (appName bundleId : String) (chars : List Char) :
    List InEvent :=
  chars.map (fun c => InEvent.key (String.singleton c) appName bundleId)

/-- The literal event the still-pending pinyin buffer eventually flushes
as (the `flush_pinyin_buffer_as_english` branch of `_event_callback`,
taken on the next non-buffering key): nothing when the buffer is empty. -/
def finalFlushEvents (s : RecState) : List KeyEvent :=
  let fl := flush_pinyin_buffer_as_english s
  if fl.1.1 ≠ "" then
    [{ character := fl.1.1, app_name := fl.1.2.1,
       app_bundle_id := fl.1.2.2, is_ime_input := false }]
  else []

/-- `InputSession` from `app_tracker.py` (the `datetime` fields as
integral seconds, the uuid as a numeric id), declared ahead of its use in
`resolvedOutput`. -/
structure InputSession where
  session_id : Nat
  app_name : String
  app_bundle_id : String
  start_time : Int
  last_activity : Int
  buffer : String := ""
  char_count : Nat := 0
deriving Repr, DecidableEq

/-- `InputSession.append`: `"\x08"` (backspace) removes the last buffered
character when the buffer is non-empty; any other string is concatenated
and counted once; `last_activity` is refreshed in every case. -/
def InputSession.append (now : Int) (char : String)
    (s : InputSession) : InputSession :=
  if char = "\x08" then
    if s.buffer ≠ "" then
      { s with buffer := s.buffer.dropRight 1, last_activity := now }
    else
      { s with last_activity := now }
  else
    { s with buffer := s.buffer ++ char, char_count := s.char_count + 1,
             last_activity := now }

/-- The resolved output text of an event run: every `KeyEvent` the
reconciler emits — together with the eventual flush of a still-pending
buffer — pushed through `InputSession.append` into one session's buffer. -/
def resolvedOutput (front : String × String) (events : List InEvent) :
    String :=
  let r := runSys (initRecState front) events
  let outs := r.2 ++ finalFlushEvents r.1
  (outs.foldl (fun (sess : InputSession) e => sess.append 0 e.character)
    { session_id := 0, app_name := "", app_bundle_id := "",
      start_time := 0, last_activity := 0 }).buffer

/-- The spec's reference text for a literal run: plain concatenation of
the mapped characters, backspace dropping the previous character with a
floor at the empty string. -/
def specConcat (chars : List Char) : String :=
  chars.foldl (fun b c => if c = '\x08' then b.dropRight 1 else b.push c) ""

/-- No space and no digit `1`–`9` arrives while pinyin mode is on — i.e.
the run never hits the two candidate-selection branches of
`_event_callback`. -/
def noCandidateKeys (appName bundleId : String) :
    RecState → List Char → Bool
  | _, [] => true
  | s, c :: cs =>
      (!(String.singleton c = " " && s.pinyinMode)) &&
      (!(pyInStr (String.singleton c) "123456789" && s.pinyinMode)) &&
      noCandidateKeys appName bundleId
        (processCharacter (String.singleton c) appName bundleId s).1 cs

/-! ## Key Event Source: the static keycode tables and the mapping step
(`keyboard_listener.py` lines 59–76 and 402–407). -/

/-- `SPECIAL_KEYCODE_MAP`: control sentinels for return, tab, space,
backspace, escape, forward-delete, arrows and function keys. -/
def SPECIAL_KEYCODE_MAP : Nat → Option String := fun k =>
  match k with
  | 36 => some "\n" | 48 => some "\t" | 49 => some " " | 51 => some "\x08"
  | 53 => some "esc" | 117 => some "del"
  | 123 => some "←" | 124 => some "→" | 125 => some "↓" | 126 => some "↑"
  | 122 => some "F1" | 120 => some "F2" | 99 => some "F3" | 118 => some "F4"
  | 96 => some "F5" | 97 => some "F6" | 98 => some "F7" | 100 => some "F8"
  | 101 => some "F9" | 109 => some "F10" | 103 => some "F11"
  | 111 => some "F12"
  | _ => none

/-- `KEYCODE_TO_CHAR`: the single literal-character table (US layout,
unshifted symbols only). -/
def KEYCODE_TO_CHAR : Nat → Option Char := fun k =>
  match k with
  | 0 => some 'a' | 1 => some 's' | 2 => some 'd' | 3 => some 'f'
  | 4 => some 'h' | 5 => some 'g' | 6 => some 'z' | 7 => some 'x'
  | 8 => some 'c' | 9 => some 'v' | 11 => some 'b' | 12 => some 'q'
  | 13 => some 'w' | 14 => some 'e' | 15 => some 'r' | 16 => some 'y'
  | 17 => some 't' | 18 => some '1' | 19 => some '2' | 20 => some '3'
  | 21 => some '4' | 22 => some '6' | 23 => some '5' | 24 => some '='
  | 25 => some '9' | 26 => some '7' | 27 => some '-' | 28 => some '8'
  | 29 => some '0' | 30 => some ']' | 31 => some 'o' | 32 => some 'u'
  | 33 => some '[' | 34 => some 'i' | 35 => some 'p' | 37 => some 'l'
  | 38 => some 'j' | 39 => some '\'' | 40 => some 'k' | 41 => some ';'
  | 42 => some '\\' | 43 => some ',' | 44 => some '/' | 45 => some 'n'
  | 46 => some 'm' | 47 => some '.' | 50 => some '`'
  | _ => none

/-- The character-determination step of `_event_callback` (lines 402–409):
consult `SPECIAL_KEYCODE_MAP` first, else look the keycode up in the single
`KEYCODE_TO_CHAR` table and apply Python's `str.upper()` when shift is
held; `none` models the `if not character: return event` early exit. -/
def computeCharacter (keycode : Nat) (shift : Bool) : Option String :=
  match SPECIAL_KEYCODE_MAP keycode with
  | some s => some s
  | none =>
      match KEYCODE_TO_CHAR keycode with
      | some c => some (String.singleton (if shift then c.toUpper else c))
      | none => none

/-- Modelled from the spec: §4.1 describes "two static lookup tables
(unshifted, shifted)", the shifted table carrying each key's shifted
symbol on the standard US layout (missing from the source, which has only
the single unshifted table).  Letter keys carry their uppercase letter,
symbol and digit keys their shifted symbol. -/
def specShiftedSymbol (keycode : Nat) : Option String :=
  match SPECIAL_KEYCODE_MAP keycode with
  | some s => some s
  | none =>
      match keycode with
      | 18 => some "!" | 19 => some "@" | 20 => some "#" | 21 => some "$"
      | 23 => some "%" | 22 => some "^" | 26 => some "&" | 28 => some "*"
      | 25 => some "(" | 29 => some ")" | 27 => some "_" | 24 => some "+"
      | 30 => some "\x7d" | 33 => some "\x7b" | 39 => some "\""
      | 41 => some ":" | 42 => some "|" | 43 => some "<" | 44 => some "?"
      | 47 => some ">" | 50 => some "~"
      | _ => (KEYCODE_TO_CHAR keycode).map (fun c => String.singleton c.toUpper)

/-! ## The outermost callback frame (`_event_callback` lines 382–483).

The body of the `try:` block (field reads of the OS event, the app lookup,
the buffer logic and the downstream callback invocations) is abstracted as
a computation that either finishes with a list of emitted `KeyEvent`s or
raises; the `except Exception: pass` handler swallows the error, runs no
logging statement, and control falls through to `return event`. -/

/-- What the OS dispatch frame observes of one callback invocation. -/
structure CallbackResult (α : Type) where
  emitted : List KeyEvent
  logLines : List String
  returned : α
deriving Repr, DecidableEq

/-- The exception boundary of `KeyboardListener._event_callback`: for a
key-down the abstracted body runs under `try`/`except Exception: pass`;
in every case the original event is returned to the OS and no log line is
produced. -/
def eventCallback {α : Type} (isKeyDown : Bool) (event : α)
    (body : Except String (List KeyEvent)) : CallbackResult α :=
  if isKeyDown then
    match body with
    | Except.ok emits => { emitted := emits, logLines := [], returned := event }
    | Except.error _ => { emitted := [], logLines := [], returned := event }
  else
    { emitted := [], logLines := [], returned := event }

/-! ## Config (`config.py`, the static defaults of `AppConfig`). -/

/-- `AppConfig.session_timeout` default: 300 seconds. -/
def session_timeout : Int := 300

/-- `AppConfig.ignored_apps` default. -/
def ignored_apps : List String :=
  ["com.apple.loginwindow", "com.apple.SecurityAgent"]

/-- `AppConfig.is_app_ignored`. -/
def is_app_ignored (bundleId : String) : Bool :=
  ignored_apps.contains bundleId

/-- `AppConfig.app_aliases` default table, as `bundle_id ↦ display name`. -/
def app_aliases : String → Option String := fun b =>
  match b with
  | "com.tencent.xinWeChat" => some "微信"
  | "com.tencent.WeChat" => some "微信"
  | "com.tencent.webplusdevtools" => some "微信开发者工具"
  | "com.apple.MobileSMS" => some "信息"
  | "com.tencent.qq" => some "QQ"
  | "com.bytedance.feishu" => some "飞书"
  | "com.alibaba.DingTalkMac" => some "钉钉"
  | "us.zoom.xos" => some "Zoom"
  | "com.slack.Slack" => some "Slack"
  | "com.todesktop.230313mzl4w4u92" => some "Cursor"
  | "com.microsoft.VSCode" => some "VS Code"
  | "com.jetbrains.intellij" => some "IntelliJ IDEA"
  | "com.sublimetext.4" => some "Sublime Text"
  | "com.apple.Terminal" => some "终端"
  | "com.googlecode.iterm2" => some "iTerm"
  | "com.kapeli.dashdoc" => some "Dash"
  | "md.obsidian" => some "Obsidian"
  | "com.apple.Notes" => some "备忘录"
  | "com.notion.Notion" => some "Notion"
  | "com.electron.kim" => some "Kim"
  | "Kem" => some "Kim"
  | "Kem.Renderer" => some "Kim"
  | "Kim" => some "Kim"
  | "com.apple.Safari" => some "Safari"
  | "com.google.Chrome" => some "Chrome"
  | "org.mozilla.firefox" => some "Firefox"
  | "com.brave.Browser" => some "Brave"
  | "com.microsoft.edgemac" => some "Edge"
  | "com.apple.mail" => some "邮件"
  | "com.microsoft.Word" => some "Word"
  | "com.microsoft.Excel" => some "Excel"
  | "com.microsoft.Powerpoint" => some "PowerPoint"
  | "com.apple.finder" => some "Finder"
  | _ => none

/-- `AppConfig.get_app_display_name`: alias lookup with the app's own name
as default. -/
def get_app_display_name (bundleId defaultName : String) : String :=
  match app_aliases bundleId with
  | some displayName => displayName
  | none => defaultName

/-! ## Session Manager (`app_tracker.py`, continued: `InputSession` and
its `append` are defined above). -/

/-- `InputSession.is_expired`: strictly more than `timeoutSeconds` elapsed
since the last activity. -/
def InputSession.is_expired (s : InputSession) (timeoutSeconds now : Int) :
    Bool :=
  now - s.last_activity > timeoutSeconds

/-- `AppStats` (per-app aggregate, mutated only when a session closes). -/
structure AppStats where
  app_name : String
  app_bundle_id : String
  display_name : String
  total_chars : Nat := 0
  session_count : Nat := 0
  total_time_seconds : Int := 0
  content_samples : List String := []
deriving Repr, DecidableEq

/-- `AppStats.add_content` with the default `max_samples = 10`: keep a
sliding window of the last content samples longer than 5 characters. -/
def AppStats.add_content (content : String) (st : AppStats) : AppStats :=
  if content ≠ "" && content.length > 5 then
    let samples := st.content_samples ++ [content]
    let samples := if samples.length > 10 then samples.drop 1 else samples
    { st with content_samples := samples }
  else st

/-- Association-list lookup standing for the Python `dict` read
`self._app_stats.get(bundle_id)`. -/
def statsLookup : List (String × AppStats) → String → Option AppStats
  | [], _ => none
  | (k, v) :: rest, key => if k = key then some v else statsLookup rest key

/-- Association-list update standing for `self._app_stats[bundle_id] = st`
(insertion order preserved, as in a Python `dict`). -/
def statsSet : List (String × AppStats) → String → AppStats →
    List (String × AppStats)
  | [], key, v => [(key, v)]
  | (k, w) :: rest, key, v =>
      if k = key then (key, v) :: rest else (k, w) :: statsSet rest key v

/-- The mutable state of `AppTracker`.  `session_ids` models the key set
of the `_sessions` dict (its values alias the live session objects and are
never read by the code under verification); `next_id` models `uuid.uuid4`
freshness. -/
structure AppTracker where
  current_session : Option InputSession := none
  session_ids : List Nat := []
  completed_sessions : List InputSession := []
  app_stats : List (String × AppStats) := []
  next_id : Nat := 0
deriving Repr, DecidableEq

/-- The empty tracker (a fresh `AppTracker()`; the frontmost-app probe of
`__init__` touches no field used below). -/
def AppTracker.init : AppTracker := {}

/-- `AppTracker._complete_session`: push the session onto the completed
list and fold its char count, one session, and its active time into the
per-app aggregate, creating the aggregate on first use. -/
def AppTracker.completeSession (session : InputSession) (t : AppTracker) :
    AppTracker :=
  let t1 := { t with completed_sessions := t.completed_sessions ++ [session] }
  let stats :=
    match statsLookup t1.app_stats session.app_bundle_id with
    | some st => st
    | none =>
        { app_name := session.app_name
          app_bundle_id := session.app_bundle_id
          display_name :=
            get_app_display_name session.app_bundle_id session.app_name }
  let stats :=
    { stats with
        total_chars := stats.total_chars + session.char_count
        session_count := stats.session_count + 1
        total_time_seconds := stats.total_time_seconds +
          (session.last_activity - session.start_time) }
  let stats := stats.add_content session.buffer
  { t1 with app_stats := statsSet t1.app_stats session.app_bundle_id stats }

/-- `AppTracker.get_or_create_session`: reuse the current session when the
bundle matches and it is not expired; otherwise complete it (if any) and
open a fresh session stamped `now`. -/
def AppTracker.get_or_create_session (now : Int)
    (appName bundleId : String) (t : AppTracker) :
    AppTracker × InputSession :=
  let createNew : AppTracker → AppTracker × InputSession := fun t2 =>
    let session : InputSession :=
      { session_id := t2.next_id
        app_name := appName
        app_bundle_id := bundleId
        start_time := now
        last_activity := now }
    ({ t2 with current_session := some session
               session_ids := t2.session_ids ++ [session.session_id]
               next_id := t2.next_id + 1 }, session)
  match t.current_session with
  | some cur =>
      if cur.app_bundle_id = bundleId &&
          !(cur.is_expired session_timeout now) then
        (t, cur)
      else
        createNew (t.completeSession cur)
  | none => createNew t

/-- `AppTracker.record_input`: drop ignored apps before touching any
state; otherwise route the text into the current-or-new session.  The
write-back of the appended session models the in-place mutation of the
shared session object. -/
def AppTracker.record_input (now : Int) (char appName bundleId : String)
    (t : AppTracker) : AppTracker × Option InputSession :=
  if is_app_ignored bundleId then (t, none)
  else
    let r := t.get_or_create_session now appName bundleId
    let session := r.2.append now char
    ({ r.1 with current_session := some session }, some session)

/-- `AppTracker.flush_current_session`: force-complete the open session
(if any) and leave no session open. -/
def AppTracker.flush_current_session (t : AppTracker) : AppTracker :=
  match t.current_session with
  | some s => { t.completeSession s with current_session := none }
  | none => t

/-! ## The persistence sink and the shutdown path (`menu_bar.py`). -/

/-- `InputRecord` as written by `OmniMeApp._save_session` (`database.py`
row; the timestamp field elided — it carries `session.last_activity`). -/
structure InputRecord where
  app_name : String
  app_bundle_id : String
  display_name : String
  content : String
  char_count : Nat
  session_id : Nat
  duration_seconds : Int
deriving Repr, DecidableEq

/-- `OmniMeApp._save_session`: skip sessions with an empty buffer, else
append one record built from the session to the database. -/
def saveSession (session : InputSession) (db : List InputRecord) :
    List InputRecord :=
  if session.buffer = "" then db
  else
    db ++ [{ app_name := session.app_name
             app_bundle_id := session.app_bundle_id
             display_name :=
               get_app_display_name session.app_bundle_id session.app_name
             content := session.buffer
             char_count := session.buffer.length
             session_id := session.session_id
             duration_seconds :=
               session.last_activity - session.start_time }]

/-- The session-saving part of `OmniMeApp._stop_recording` (listener
present): first `self.tracker.flush_current_session()`, then
`if self.tracker._current_session: self._save_session(...)`. -/
def stopRecording (t : AppTracker) (db : List InputRecord) :
    AppTracker × List InputRecord :=
  let t1 := t.flush_current_session
  match t1.current_session with
  | some s => (t1, saveSession s db)
  | none => (t1, db)

/-! ## Supporting lemmas -/

/-- `String.push` is appending a singleton. -/
lemma push_eq_append_singleton (s : String) (c : Char) :
    s.push c = s ++ String.singleton c := rfl

/-- `toList` distributes over string append. -/
lemma toList_append (a b : String) :
    (a ++ b).toList = a.toList ++ b.toList := by
  cases a; cases b; rfl

/-- `toList` of a singleton string. -/
lemma toList_singleton (c : Char) : (String.singleton c).toList = [c] := rfl

/-- A singleton string equals the backspace string exactly for the
backspace character. -/
lemma singleton_eq_backspace_iff (c : Char) :
    (String.singleton c = "\x08") ↔ c = '\x08' := by
  constructor
  · intro h
    have h2 := congrArg String.toList h
    rw [toList_singleton] at h2
    exact List.head_eq_of_cons_eq h2
  · intro h; subst h; rfl

/-- A string of alphabetic characters is never the backspace string. -/
lemma ne_backspace_of_all_alpha {s : String}
    (h : s.toList.all (fun c => c.isAlpha && c.isLower) = true) :
    s ≠ "\x08" := by
  intro hs; subst hs; simp at h

/-- The buffer evolution of `InputSession.append`, as a pure string
step. -/
def strStep (b t : String) : String :=
  if t = "\x08" then b.dropRight 1 else b ++ t

/-- `append` acts on the session's buffer exactly as `strStep`. -/
lemma append_buffer (now : Int) (char : String) (sess : InputSession) :
    (sess.append now char).buffer = strStep sess.buffer char := by
  unfold InputSession.append strStep
  by_cases h : char = "\x08"
  · by_cases h2 : sess.buffer = "" <;> simp [h, h2]
    rfl
  · simp [h]

/-- Folding `append` over emitted events touches the buffer exactly as
folding `strStep` over the events' texts. -/
lemma foldl_append_buffer (outs : List KeyEvent) :
    ∀ sess : InputSession,
      (outs.foldl (fun (s : InputSession) e => s.append 0 e.character)
        sess).buffer
        = outs.foldl (fun b e => strStep b e.character) sess.buffer := by
  induction outs with
  | nil => intro sess; rfl
  | cons e es ih =>
      intro sess
      rw [List.foldl_cons, List.foldl_cons, ih, append_buffer]

/-- Unfolding lemma for `runSys` on a cons cell. -/
lemma runSys_cons (s : RecState) (e : InEvent) (es : List InEvent) :
    runSys s (e :: es) =
      ((runSys (stepSys s e).1 es).1,
       (stepSys s e).2 ++ (runSys (stepSys s e).1 es).2) := rfl

/-- The lowercase-literal branch of `processCharacter`: buffer the
character, record the apps, emit nothing. -/
lemma processCharacter_lower (c : Char) (n bd : String) (s : RecState)
    (h : (pyIsAlpha (String.singleton c) &&
          pyIsLower (String.singleton c)) = true) :
    processCharacter (String.singleton c) n bd s =
      ({ s with pinyinMode := true
                lastInputApp := (n, bd)
                pinyinBuffer := s.pinyinBuffer ++ String.singleton c
                pinyinBufferApp := (n, bd) }, []) := by
  unfold processCharacter
  simp [h, set_pinyin_mode, set_last_input_app, add_to_pinyin_buffer]

/-- The flush branch of `processCharacter`: whenever the character is not
lowercase-alphabetic and not a consumed candidate key, the buffer (if
non-empty) flushes as one literal event attributed to the buffer's
recorded app, then the character itself is emitted. -/
lemma processCharacter_flush (cstr n bd : String) (s : RecState)
    (hA : (pyIsAlpha cstr && pyIsLower cstr) = false)
    (hSp : (cstr = " " && s.pinyinMode) = false)
    (hDg : (pyInStr cstr "123456789" && s.pinyinMode) = false) :
    processCharacter cstr n bd s =
      ({ s with pinyinBuffer := "", pinyinMode := false },
       (if s.pinyinBuffer ≠ "" then
          [{ character := s.pinyinBuffer
             app_name := s.pinyinBufferApp.1
             app_bundle_id := s.pinyinBufferApp.2
             is_ime_input := false }]
        else [])
        ++ [{ character := cstr, app_name := n, app_bundle_id := bd,
              is_ime_input := false }]) := by
  unfold processCharacter
  simp [hA, hSp, hDg, flush_pinyin_buffer_as_english, set_pinyin_mode]

/-- From the branch guard of the lowercase case: the character is a
lowercase letter. -/
lemma lower_of_singleton_guard {c : Char}
    (h : (pyIsAlpha (String.singleton c) &&
          pyIsLower (String.singleton c)) = true) :
    c.isAlpha = true ∧ c.isLower = true := by
  simp [pyIsAlpha, pyIsLower, toList_singleton] at h
  obtain ⟨hα, hcase, hnu⟩ := h
  refine ⟨hα, ?_⟩
  rcases hcase with h1 | h1
  · exact h1
  · exact absurd h1 (by simp [hnu])

/-- String append is associative. -/
lemma str_append_assoc (a b c : String) :
    (a ++ b) ++ c = a ++ (b ++ c) := by
  cases a with
  | mk x =>
    cases b with
    | mk y =>
      cases c with
      | mk z =>
        show String.mk ((x ++ y) ++ z) = String.mk (x ++ (y ++ z))
        rw [List.append_assoc]

/-- `strStep` on a singleton string is the spec's character step. -/
lemma strStep_singleton (x : String) (c : Char) :
    strStep x (String.singleton c) =
      if c = '\x08' then x.dropRight 1 else x.push c := by
  unfold strStep
  by_cases h : c = '\x08'
  · subst h
    rw [if_pos (show String.singleton '\x08' = "\x08" from rfl), if_pos rfl]
  · rw [if_neg h,
        if_neg (fun hh => h ((singleton_eq_backspace_iff c).mp hh)),
        push_eq_append_singleton]

/-- Main correspondence for literal-only runs.  Starting from a state
whose pending pinyin buffer holds only lowercase letters, a run of
single-character literal key events that never hits a candidate-selection
branch resolves — the emitted events plus the eventual flush of the
pending buffer, folded through the session-buffer step — to the plain
backspace-aware concatenation of the characters, continued from the
already-accumulated text followed by the pending buffer. -/
lemma run_foldl_spec (n bd : String) (chars : List Char) :
    ∀ (s : RecState) (acc : String),
      s.pinyinBuffer.toList.all (fun c => c.isAlpha && c.isLower) = true →
      noCandidateKeys n bd s chars = true →
      ((runSys s (keyEvents n bd chars)).2
          ++ finalFlushEvents (runSys s (keyEvents n bd chars)).1).foldl
          (fun b e => strStep b e.character) acc
        = chars.foldl
            (fun b c => if c = '\x08' then b.dropRight 1 else b.push c)
            (acc ++ s.pinyinBuffer) := by
  induction chars with
  | nil =>
      intro s acc hInv _
      show ((runSys s []).2 ++ finalFlushEvents (runSys s []).1).foldl
        (fun b e => strStep b e.character) acc = acc ++ s.pinyinBuffer
      by_cases hb : s.pinyinBuffer = ""
      · simp [runSys, finalFlushEvents, flush_pinyin_buffer_as_english, hb]
      · simp [runSys, finalFlushEvents, flush_pinyin_buffer_as_english, hb,
              strStep, ne_backspace_of_all_alpha hInv]
  | cons c cs ih =>
      intro s acc hInv hGood
      have hkeys : keyEvents n bd (c :: cs) =
          InEvent.key (String.singleton c) n bd :: keyEvents n bd cs := rfl
      rw [hkeys, runSys_cons]
      have hstep : stepSys s (InEvent.key (String.singleton c) n bd) =
          processCharacter (String.singleton c) n bd s := rfl
      simp only [noCandidateKeys, Bool.and_eq_true, Bool.not_eq_true']
        at hGood
      obtain ⟨⟨hSp', hDg'⟩, hTail⟩ := hGood
      by_cases hA : (pyIsAlpha (String.singleton c) &&
          pyIsLower (String.singleton c)) = true
      · -- lowercase branch: buffered, nothing emitted
        obtain ⟨hca, hcl⟩ := lower_of_singleton_guard hA
        rw [hstep, processCharacter_lower c n bd s hA]
        rw [processCharacter_lower c n bd s hA] at hTail
        simp only [List.nil_append]
        rw [ih _ acc ?_ hTail]
        · have hcb : c ≠ '\x08' := by
            intro h; subst h; simp at hca
          rw [List.foldl_cons, if_neg hcb, push_eq_append_singleton,
              str_append_assoc]
        · rw [toList_append, toList_singleton, List.all_append,
              Bool.and_eq_true]
          exact ⟨hInv, by simp [hca, hcl]⟩
      · -- flush branch
        rw [Bool.not_eq_true] at hA
        rw [hstep, processCharacter_flush (String.singleton c) n bd s hA
              hSp' hDg']
        rw [processCharacter_flush (String.singleton c) n bd s hA
              hSp' hDg'] at hTail
        dsimp only at hTail ⊢
        rw [List.append_assoc, List.foldl_append]
        have hemits :
            ((if s.pinyinBuffer ≠ "" then
                [{ character := s.pinyinBuffer
                   app_name := s.pinyinBufferApp.1
                   app_bundle_id := s.pinyinBufferApp.2
                   is_ime_input := false }]
              else [])
              ++ [{ character := String.singleton c, app_name := n,
                    app_bundle_id := bd, is_ime_input := false }] :
                List KeyEvent).foldl
              (fun b e => strStep b e.character) acc
            = strStep (acc ++ s.pinyinBuffer) (String.singleton c) := by
          by_cases hb : s.pinyinBuffer = ""
          · simp [hb]
          · have hnb : s.pinyinBuffer ≠ "\x08" := ne_backspace_of_all_alpha hInv
            simp [hb, strStep, hnb]
        rw [hemits, ih _ _ (by simp) hTail]
        rw [List.foldl_cons, strStep_singleton]
        simp

/-- `flush_current_session` always leaves no session open. -/
lemma flush_current_none (t : AppTracker) :
    (t.flush_current_session).current_session = none := by
  unfold AppTracker.flush_current_session
  cases h : t.current_session <;> simp [h]

/-- The candidate-selection branches of `processCharacter`: a space or a
string contained in `"123456789"` arriving in pinyin mode is consumed
without touching the state. -/
lemma processCharacter_skip (cstr n bd : String) (s : RecState)
    (hmode : s.pinyinMode = true)
    (hA : (pyIsAlpha cstr && pyIsLower cstr) = false)
    (hc : cstr = " " ∨ pyInStr cstr "123456789" = true) :
    processCharacter cstr n bd s = (s, []) := by
  unfold processCharacter
  rw [hA]
  rcases hc with h | h
  · subst h; simp [hmode]
  · rw [hmode]
    by_cases hsp : cstr = " "
    · subst hsp; simp
    · simp [hsp, h]

/-! ## Scenario constants -/

/-- The frontmost app used by the concrete scenarios. -/
def frontApp : String × String := ("Front", "bundle.front")

/-- The event trace of the "nihao" / "你好" scenario: five buffered
lowercase literals, then the composed text from the Rime log. -/
def c1Events : List InEvent :=
  [.key "n" "AppA" "bundle.a", .key "i" "AppA" "bundle.a",
   .key "h" "AppA" "bundle.a", .key "a" "AppA" "bundle.a",
   .key "o" "AppA" "bundle.a", .rime "你好"]

/-- The run of the "nihao" / "你好" scenario. -/
def c1Run : RecState × List KeyEvent :=
  runSys (initRecState frontApp) c1Events

/-- The reconciler state holding buffered `"ok"` typed in AppA. -/
def c3OkState : RecState :=
  (runSys (initRecState frontApp)
    [.key "o" "AppA" "bundle.a", .key "k" "AppA" "bundle.a"]).1

/-- An open session holding two not-yet-persisted characters. -/
def c5Session : InputSession :=
  { session_id := 7, app_name := "AppA", app_bundle_id := "bundle.a",
    start_time := 0, last_activity := 10, buffer := "hi", char_count := 2 }

/-- A tracker whose open session is `c5Session`. -/
def c5Tracker : AppTracker :=
  { current_session := some c5Session, session_ids := [7], next_id := 8 }

/-- One `record_input` call for AppA at the given time with the given
text. -/
def c6Step (t : AppTracker) (p : Int × String) : AppTracker :=
  (t.record_input p.1 p.2 "AppA" "bundle.a").1

/-- "hello" at t = 0, then "x" at t = 400, all for AppA. -/
def c6Inputs : List (Int × String) :=
  [(0, "h"), (0, "e"), (0, "l"), (0, "l"), (0, "o"), (400, "x")]

/-- The tracker after the full C6 input trace. -/
def c6Tracker : AppTracker := c6Inputs.foldl c6Step AppTracker.init

/-- The tracker after only the five t = 0 inputs. -/
def c6TrackerFirstFive : AppTracker :=
  (c6Inputs.take 5).foldl c6Step AppTracker.init

/-! ## Claim theorems -/

/-- C1: with the literal lowercase sequence "nihao" buffered, a composed
text event "你好" makes the reconciler emit exactly one resolved event,
whose text is "你好" and whose provenance is ime; the buffered "nihao" is
discarded (the buffer ends empty) and appears in no emitted event's
text. -/
theorem c1_composed_text_replaces_buffer :
    c1Run.2 = [{ character := "你好", app_name := "AppA",
                 app_bundle_id := "bundle.a", is_ime_input := true }] ∧
    (∀ e ∈ c1Run.2, pyInStr "nihao" e.character = false) ∧
    c1Run.1.pinyinBuffer = "" := by
  decide

/-- C2 counterexample: the claim quantifies over every literal key
sequence, but a space typed right after a lowercase letter is consumed as
an IME candidate-selection key: the run "a", " " resolves to "a", not to
the claimed concatenation "a ". -/
theorem c2_counterexample :
    resolvedOutput frontApp (keyEvents "AppA" "bundle.a" ['a', ' ']) = "a"
    ∧ specConcat ['a', ' '] = "a "
    ∧ ("a" : String) ≠ "a " := by
  decide

/-- C2 (amended): for every sequence of single-character literal key
events with no interleaved composed text and in which no space and no
digit 1–9 arrives while the reconciler is in pinyin mode, the resolved
output text equals the backspace-aware concatenation of the mapped
characters, with removal clamped at the empty buffer. -/
theorem c2_literal_run_concat (n bd : String) (front : String × String)
    (chars : List Char)
    (h : noCandidateKeys n bd (initRecState front) chars = true) :
    resolvedOutput front (keyEvents n bd chars) = specConcat chars := by
  simp only [resolvedOutput, specConcat]
  rw [foldl_append_buffer]
  have hmain := run_foldl_spec n bd chars (initRecState front) "" rfl h
  simpa using hmain

/-- C2 witness: the run "h", "i", backspace, "!" satisfies the
no-candidate-key hypothesis and resolves to "h!". -/
theorem c2_literal_run_concat_witness :
    noCandidateKeys "AppA" "bundle.a" (initRecState frontApp)
      ['h', 'i', '\x08', '!'] = true ∧
    resolvedOutput frontApp
        (keyEvents "AppA" "bundle.a" ['h', 'i', '\x08', '!'])
      = specConcat ['h', 'i', '\x08', '!'] :=
  ⟨by decide,
   c2_literal_run_concat "AppA" "bundle.a" frontApp ['h', 'i', '\x08', '!']
     (by decide)⟩

/-- C3 counterexample: two divergences from the claim as stated.  First,
the flushed literal event is attributed to the app of the most recent
buffered character, not the app captured when buffering began: buffering
"o" in AppA and "k" in AppB and flushing with "K" emits "ok" attributed
to AppB.  Second, the control sentinels produced for the escape and
forward-delete keys are lowercase alphabetic strings ("esc", "del"), so
they do not trigger a flush at all — they are appended to the buffer. -/
theorem c3_counterexample :
    ((runSys (initRecState frontApp)
        [.key "o" "AppA" "bundle.a", .key "k" "AppB" "bundle.b",
         .key "K" "AppC" "bundle.c"]).2 =
      [{ character := "ok", app_name := "AppB", app_bundle_id := "bundle.b",
         is_ime_input := false },
       { character := "K", app_name := "AppC", app_bundle_id := "bundle.c",
         is_ime_input := false }] ∧
     ("AppB" : String) ≠ "AppA") ∧
    ((runSys (initRecState frontApp)
        [.key "o" "AppA" "bundle.a", .key "k" "AppA" "bundle.a",
         .key "esc" "AppA" "bundle.a"]).2 = [] ∧
     (runSys (initRecState frontApp)
        [.key "o" "AppA" "bundle.a", .key "k" "AppA" "bundle.a",
         .key "esc" "AppA" "bundle.a"]).1.pinyinBuffer = "okesc") := by
  decide

/-- C3 (amended): when the reconciler is buffering (non-empty buffer) and
a character arrives that is neither lowercase-alphabetic (which excludes
the sentinels "esc" and "del") nor a consumed candidate-selection key,
the buffered run is first emitted as a single literal event attributed to
the app recorded with the most recent buffered character (equal to the
buffering-start app whenever the target app did not change mid-run), the
buffer is cleared, and only then is the triggering character emitted as
its own fresh literal event. -/
theorem c3_flush_before_trigger (s : RecState) (cstr n bd : String)
    (hbuf : s.pinyinBuffer ≠ "")
    (hA : (pyIsAlpha cstr && pyIsLower cstr) = false)
    (hSp : (cstr = " " && s.pinyinMode) = false)
    (hDg : (pyInStr cstr "123456789" && s.pinyinMode) = false) :
    processCharacter cstr n bd s =
      ({ s with pinyinBuffer := "", pinyinMode := false },
       [{ character := s.pinyinBuffer, app_name := s.pinyinBufferApp.1,
          app_bundle_id := s.pinyinBufferApp.2, is_ime_input := false },
        { character := cstr, app_name := n, app_bundle_id := bd,
          is_ime_input := false }]) := by
  rw [processCharacter_flush cstr n bd s hA hSp hDg, if_pos hbuf]
  rfl

/-- C3 witness: buffered "ok" typed in AppA followed by uppercase "K"
flushes the literal event "ok" for AppA before "K" is emitted. -/
theorem c3_flush_before_trigger_witness :
    processCharacter "K" "AppA" "bundle.a" c3OkState =
      ({ pinyinBuffer := "", pinyinBufferApp := ("AppA", "bundle.a"),
         pinyinMode := false, lastInputApp := ("AppA", "bundle.a"),
         frontmostApp := frontApp },
       [{ character := "ok", app_name := "AppA",
          app_bundle_id := "bundle.a", is_ime_input := false },
        { character := "K", app_name := "AppA", app_bundle_id := "bundle.a",
          is_ime_input := false }]) :=
  (c3_flush_before_trigger c3OkState "K" "AppA" "bundle.a" (by decide)
    (by decide) (by decide) (by decide)).trans (by decide)

/-- C4: a space or a digit 1–9 arriving while the reconciler is in pinyin
mode is consumed silently — the step emits nothing and leaves the whole
reconciliation state (in particular the buffer) unchanged, so the
character can never appear in the text of any emitted event of the
continued run. -/
theorem c4_candidate_keys_consumed (s : RecState) (cstr n bd : String)
    (hmode : s.pinyinMode = true)
    (hcs : cstr ∈ ([" ", "1", "2", "3", "4", "5", "6", "7", "8", "9"] :
        List String)) :
    processCharacter cstr n bd s = (s, []) ∧
    ∀ rest, runSys s (InEvent.key cstr n bd :: rest) = runSys s rest := by
  have hA : (pyIsAlpha cstr && pyIsLower cstr) = false := by
    fin_cases hcs <;> rfl
  have hc : cstr = " " ∨ pyInStr cstr "123456789" = true := by
    fin_cases hcs
    · exact Or.inl rfl
    all_goals exact Or.inr (by decide)
  have hstep := processCharacter_skip cstr n bd s hmode hA hc
  refine ⟨hstep, fun rest => ?_⟩
  rw [runSys_cons,
      show stepSys s (InEvent.key cstr n bd) =
        processCharacter cstr n bd s from rfl,
      hstep]
  simp

/-- C4 witness: with "a" buffered (pinyin mode on), the space key is
consumed: state unchanged and nothing emitted. -/
theorem c4_candidate_keys_consumed_witness :
    processCharacter " " "AppA" "bundle.a"
        (runSys (initRecState frontApp) [.key "a" "AppA" "bundle.a"]).1 =
      ((runSys (initRecState frontApp) [.key "a" "AppA" "bundle.a"]).1,
        []) :=
  (c4_candidate_keys_consumed
    (runSys (initRecState frontApp) [.key "a" "AppA" "bundle.a"]).1
    " " "AppA" "bundle.a" (by decide) (by decide)).1

/-- C5 (code bug): `_stop_recording` nulls the open session via
`flush_current_session()` before testing `self.tracker._current_session`,
so the save branch is dead code: for every tracker state the database is
left untouched at stop time, and in particular the two buffered
characters of `c5Session` are moved to the in-memory completed list but
never reach the persistence sink. -/
theorem c5_stop_drops_buffered_text :
    (∀ (t : AppTracker) (db : List InputRecord),
        (stopRecording t db).2 = db) ∧
    ((stopRecording c5Tracker []).2 = [] ∧
     c5Tracker.current_session = some c5Session ∧
     c5Session.buffer = "hi" ∧
     (stopRecording c5Tracker []).1.completed_sessions = [c5Session]) := by
  constructor
  · intro t db
    simp only [stopRecording, flush_current_none]
  · decide

/-- C6: with the configured 300-second idle timeout, the literal inputs
"h","e","l","l","o" for AppA at t = 0 followed by "x" at t = 400 produce
exactly two sessions for AppA: after the first five inputs nothing is
completed and one session with 5 characters is open; the sixth input
closes that first session (5 characters, 0 seconds between first and last
activity) and opens a second session holding 1 character. -/
theorem c6_idle_timeout_two_sessions :
    c6TrackerFirstFive.completed_sessions = [] ∧
    c6TrackerFirstFive.current_session =
      some { session_id := 0, app_name := "AppA",
             app_bundle_id := "bundle.a", start_time := 0,
             last_activity := 0, buffer := "hello", char_count := 5 } ∧
    c6Tracker.completed_sessions =
      [{ session_id := 0, app_name := "AppA", app_bundle_id := "bundle.a",
         start_time := 0, last_activity := 0, buffer := "hello",
         char_count := 5 }] ∧
    c6Tracker.current_session =
      some { session_id := 1, app_name := "AppA",
             app_bundle_id := "bundle.a", start_time := 400,
             last_activity := 400, buffer := "x", char_count := 1 } := by
  decide

/-- C7: appending the backspace control character to a session removes
the last buffered character, clamped at the empty buffer — the result is
always `dropRight 1`, so an empty buffer stays empty and never
underflows. -/
theorem c7_backspace_clamped (now : Int) (s : InputSession) :
    (s.append now "\x08").buffer = s.buffer.dropRight 1 ∧
    (s.buffer = "" → (s.append now "\x08").buffer = "") := by
  have h : (s.append now "\x08").buffer = strStep s.buffer "\x08" :=
    append_buffer now "\x08" s
  rw [h]
  unfold strStep
  rw [if_pos rfl]
  exact ⟨rfl, fun hb => by rw [hb]; rfl⟩

/-- C7 witness: backspace on a concrete empty-buffer session leaves the
buffer empty. -/
theorem c7_backspace_clamped_witness :
    (InputSession.append 3 "\x08"
      { session_id := 0, app_name := "a", app_bundle_id := "b",
        start_time := 0, last_activity := 0 }).buffer = "" :=
  (c7_backspace_clamped 3
    { session_id := 0, app_name := "a", app_bundle_id := "b",
      start_time := 0, last_activity := 0 }).2 rfl

/-- C8 counterexample: the callback's `except Exception: pass` handler
swallows a raising body without running any logging statement — the log
output is empty, contradicting the claim that the exception is logged
locally within the callback (the event is still returned). -/
theorem c8_counterexample :
    eventCallback true (0 : Nat) (Except.error "lookup failed") =
      { emitted := [], logLines := [], returned := 0 } := by
  decide

/-- C8 (amended): any exception raised inside the keystroke callback is
caught and silently suppressed — no log line is ever produced — and no
exception propagates into the OS dispatch frame: the callback is total
and always returns the original event. -/
theorem c8_callback_swallows_exceptions (α : Type) (isKeyDown : Bool)
    (ev : α) (body : Except String (List KeyEvent)) :
    (eventCallback isKeyDown ev body).returned = ev ∧
    (eventCallback isKeyDown ev body).logLines = [] := by
  cases isKeyDown <;> cases body <;> simp [eventCallback]

/-- C9 counterexample: the source has no shifted lookup table — shift is
applied as Python `str.upper()` to the single table's character, so
shift+`1` (keycode 18) still maps to "1", identical to the unshifted
mapping and different from the key's shifted symbol "!". -/
theorem c9_counterexample :
    computeCharacter 18 true = some "1" ∧
    computeCharacter 18 true = computeCharacter 18 false ∧
    specShiftedSymbol 18 = some "!" ∧
    computeCharacter 18 true ≠ specShiftedSymbol 18 := by
  decide

/-- C9 (amended): key code plus shift state is mapped through the single
static table `KEYCODE_TO_CHAR` with an uppercase transform when shift is
held (so for every non-letter key the shifted mapping equals the
unshifted one — never a distinct shifted symbol), while the keycodes of
`SPECIAL_KEYCODE_MAP` map to their control sentinel regardless of
shift. -/
theorem c9_single_table_upper :
    (∀ keycode c shift, SPECIAL_KEYCODE_MAP keycode = none →
        KEYCODE_TO_CHAR keycode = some c →
        computeCharacter keycode shift =
          some (String.singleton (if shift then c.toUpper else c))) ∧
    (∀ keycode ∈ ([18, 19, 20, 21, 22, 23, 24, 25, 26, 27, 28, 29, 30,
        33, 39, 41, 42, 43, 44, 47, 50] : List Nat),
        computeCharacter keycode true = computeCharacter keycode false) ∧
    (∀ keycode sentinel shift, SPECIAL_KEYCODE_MAP keycode = some sentinel →
        computeCharacter keycode shift = some sentinel) := by
  refine ⟨?_, by decide, ?_⟩
  · intro k c sh h1 h2
    unfold computeCharacter
    rw [h1, h2]
  · intro k sentinel sh h1
    unfold computeCharacter
    rw [h1]

/-- C9 witness: shift+`a` (keycode 0) maps to "A", shift+`=` (keycode 24)
maps the same as unshifted, and the return key (keycode 36) maps to its
sentinel under shift. -/
theorem c9_single_table_upper_witness :
    computeCharacter 0 true = some "A" ∧
    computeCharacter 24 true = computeCharacter 24 false ∧
    computeCharacter 36 true = some "\n" :=
  ⟨(c9_single_table_upper.1 0 'a' true rfl rfl).trans (by decide),
   c9_single_table_upper.2.1 24 (by decide),
   c9_single_table_upper.2.2 36 "\n" true rfl⟩

/-- C10: `record_input` for a character whose target bundle identifier is
in the configured ignored-apps set returns no session and leaves the
tracker's entire state unchanged. -/
theorem c10_ignored_app_noop (now : Int) (char appName bundleId : String)
    (t : AppTracker) (h : is_app_ignored bundleId = true) :
    t.record_input now char appName bundleId = (t, none) := by
  simp [AppTracker.record_input, h]

/-- C10 witness: an input targeted at `com.apple.loginwindow` is dropped
with the tracker untouched. -/
theorem c10_ignored_app_noop_witness :
    AppTracker.init.record_input 5 "a" "X" "com.apple.loginwindow" =
      (AppTracker.init, none) :=
  c10_ignored_app_noop 5 "a" "X" "com.apple.loginwindow" AppTracker.init
    (by decide)

end OmniMe
